import Mathlib

/-!
Verification development for the create-said-agent scaffolding tool.

The development shallowly embeds the registration client (register.ts, in
both its sponsored and its pending variant), the key material provider and
the template dispatch of scaffold.ts.  Machine-level effects are made
explicit: the single HTTP request a call performs is returned as part of
the result, file writes are returned as a list of path/content pairs, and
the ambient values the code reads (Date.now(), new Date().toISOString(),
the fetch outcome) are passed in as arguments.  External collaborators
(the ed25519 detached-signature primitive of tweetnacl) are passed in as
function parameters, so every theorem quantifies over them.
-/

/-- Model of a JSON value, used for request bodies and for files written
with writeJson.  JSON.stringify drops fields whose value is undefined, so
optional fields are modelled by conditional inclusion, see optField. -/
inductive Json where
| str (s : String)
| num (n : Nat)
| bool (b : Bool)
| arr (xs : List Json)
| obj (kvs : List (String × Json))
| null

/-- Content of a generated file: a JSON document (writeJson / writeJsonSync)
or plain text (writeFileSync). -/
inductive FileContent where
| json (j : Json)
| text (s : String)

/-- True when the JSON array xs is exactly the byte list bs rendered as
JSON numbers. -/
def jsonEqNumList : List Json → List Nat → Bool
| [], [] => true
| Json.num a :: xs, b :: bs => a == b && jsonEqNumList xs bs
| _, _ => false

mutual

/-- True when the byte sequence bs occurs in the JSON value as a
number-array, at any depth. -/
def jsonHasBytes (bs : List Nat) : Json → Bool
| Json.arr xs => jsonEqNumList xs bs || jsonListHasBytes bs xs
| Json.obj kvs => jsonObjHasBytes bs kvs
| _ => false

/-- List version of jsonHasBytes. -/
def jsonListHasBytes (bs : List Nat) : List Json → Bool
| [] => false
| x :: xs => jsonHasBytes bs x || jsonListHasBytes bs xs

/-- Object version of jsonHasBytes. -/
def jsonObjHasBytes (bs : List Nat) : List (String × Json) → Bool
| [] => false
| kv :: kvs => jsonHasBytes bs kv.2 || jsonObjHasBytes bs kvs

end

/-- True when the byte sequence bs occurs in a written file content as a
JSON number-array. -/
def fileContentHasBytes (bs : List Nat) : FileContent → Bool
| FileContent.json j => jsonHasBytes bs j
| FileContent.text _ => false

/-- Look up the first JSON object field with the given key. -/
def lookupField (kvs : List (String × Json)) (k : String) : Option Json :=
  (kvs.find? (fun kv => kv.1 == k)).map (fun kv => kv.2)

/-- JSON.stringify drops undefined fields: an optional field contributes
one pair when present and nothing when absent. -/
def optField (k : String) (o : Option Json) : List (String × Json) :=
  match o with
  | some j => [(k, j)]
  | none => []

/-- JavaScript truthiness of an optional boolean field: only the value
true is truthy; false and undefined are falsy. -/
def truthy : Option Bool → Bool
| some b => b
| none => false

/-- JavaScript expression a or-else d on an optional string: the empty
string and undefined are falsy and fall back to the default. -/
def jsOr (o : Option String) (d : String) : String :=
  match o with
  | some s => if s = "" then d else s
  | none => d

/-- JavaScript expression a or-else d on an optional number: 0 and
undefined are falsy and fall back to the default. -/
def jsOrNat (o : Option Nat) (d : Nat) : Nat :=
  match o with
  | some n => if n = 0 then d else n
  | none => d

/-- Embedding of path.join for the flat paths this tool produces. -/
def pathJoin (dir file : String) : String := dir ++ "/" ++ file

/-- The base-58 alphabet used by the bs58 package. -/
def base58Alphabet : List Char :=
  "123456789ABCDEFGHJKLMNPQRSTUVWXYZabcdefghijkmnopqrstuvwxyz".data

/-- Digit character of the base-58 alphabet. -/
def b58DigitChar (d : Nat) : Char := base58Alphabet.getD d '1'

/-- Base-58 digits of a natural number, most significant first,
accumulated onto acc; zero contributes no digits. -/
def natToB58 (n : Nat) (acc : List Char) : List Char :=
  if h : n = 0 then acc
  else natToB58 (n / 58) (b58DigitChar (n % 58) :: acc)
termination_by n
decreasing_by exact Nat.div_lt_self (Nat.pos_of_ne_zero h) (by decide)

/-- Big-endian byte sequence read as a natural number. -/
def bytesBEtoNat (bs : List Nat) : Nat :=
  bs.foldl (fun a b => a * 256 + b) 0

/-- Embedding of bs58.encode: leading zero bytes map to the character 1,
the remaining value is written in base 58. -/
def base58Encode (bs : List Nat) : String :=
  let zeros := (bs.takeWhile (fun b => b == 0)).length
  (List.replicate zeros '1' ++ natToB58 (bytesBEtoNat bs) []).asString

/-- UTF-8 bytes of a string, as produced by TextEncoder().encode. -/
def utf8Bytes (s : String) : List Nat :=
  s.toUTF8.toList.map (fun b => b.toNat)

/-- Model of a solana web3 Keypair: the 64-byte ed25519 secret key, whose
last 32 bytes are the public key. -/
structure Keypair where
  secretKey : List Nat

/-- Public key bytes of a keypair: the last 32 bytes of the 64-byte
secret key. -/
def Keypair.publicKeyBytes (kp : Keypair) : List Nat :=
  kp.secretKey.drop 32

/-- Embedding of keypair.publicKey.toString(): the base-58 rendering of
the public key bytes. -/
def Keypair.address (kp : Keypair) : String :=
  base58Encode kp.publicKeyBytes

/-- Embedding of Keypair.fromSecretKey: accepts exactly 64 bytes. -/
def Keypair.fromSecretKey (bs : List Nat) : Option Keypair :=
  if bs.length = 64 then some ⟨bs⟩ else none

/-- Coercion performed by Uint8Array.from on a JSON array: each element
must be a number and is truncated to a byte. -/
def coerceBytes : List Json → Option (List Nat)
| [] => some []
| Json.num n :: xs => (coerceBytes xs).map (fun bs => n % 256 :: bs)
| _ :: _ => none

/-- Read a JSON document as a byte array, as Uint8Array.from(readJsonSync)
does; anything but an array of numbers fails. -/
def uint8ArrayFrom (j : Json) : Option (List Nat) :=
  match j with
  | Json.arr xs => coerceBytes xs
  | _ => none

/-- Embedding of loadKeypair (scaffold.ts): read the wallet file content
as a byte array and rebuild the keypair from it. -/
def loadKeypair (content : Json) : Option Keypair :=
  (uint8ArrayFrom content).bind Keypair.fromSecretKey

/-- Embedding of generateKeypair (scaffold.ts): the freshly generated
keypair is passed in as the random input; the function returns it and
writes Array.from(keypair.secretKey) to wallet.json in the project
directory.  This is the only file that ever receives the secret key. -/
def generateKeypair (kp : Keypair) (projectPath : String) :
    Keypair × List (String × FileContent) :=
  (kp, [(pathJoin projectPath "wallet.json",
         FileContent.json (Json.arr (kp.secretKey.map Json.num)))])

/-- Decimal digit character, offset from the character 0. -/
def charDigit (c : Char) : Nat := c.toNat - 48

/-- Decimal rendering of a natural number, the interpolation a JavaScript
template literal performs on an integral number value. -/
def natToDecString (n : Nat) : String :=
  if n = 0 then "0"
  else (((Nat.digits 10 n).map Nat.digitChar).reverse).asString

/-- Left inverse of natToDecString, used to prove it injective. -/
def decodeDec (s : String) : Nat :=
  Nat.ofDigits 10 (s.data.reverse.map charDigit)

/-- Embedding of getRegistrationMessage (register.ts): the canonical
colon-delimited message that is signed for registration. -/
def getRegistrationMessage (wallet name : String) (timestamp : Nat) : String :=
  "SAID:register:" ++ wallet ++ ":" ++ name ++ ":" ++ natToDecString timestamp

/-- Embedding of signMessage (register.ts): a detached signature over the
UTF-8 bytes of the message with the keypair secret key, encoded in
base 58.  The ed25519 primitive nacl.sign.detached is the parameter
sign. -/
def signMessage (sign : List Nat → List Nat → List Nat)
    (message : String) (kp : Keypair) : String :=
  base58Encode (sign (utf8Bytes message) kp.secretKey)

/-- Fixed API origin (register.ts API_BASE). -/
def apiBase : String := "https://api.saidprotocol.com"

/-- Options of registerAgent (interface RegisterOptions). -/
structure RegisterOptions where
  keypair : Keypair
  name : String
  description : String
  projectPath : String
  twitter : Option String := none
  website : Option String := none
  capabilities : Option (List String) := none

/-- Result of registerAgent (interface RegisterResult). -/
structure RegisterResult where
  success : Bool
  sponsored : Option Bool := none
  pda : Option String := none
  profile : Option String := none
  slotsRemaining : Option Nat := none
  error : Option String := none

/-- Parsed response body of the registration endpoints (interface
SponsoredResponse); every field may be absent. -/
structure SponsoredResponse where
  success : Option Bool := none
  sponsored : Option Bool := none
  pda : Option String := none
  metadataUri : Option String := none
  profile : Option String := none
  badge : Option String := none
  slotsRemaining : Option Nat := none
  error : Option String := none

/-- Parsed response body of the status endpoint (interface
StatusResponse). -/
structure StatusResponse where
  available : Bool
  slotsRemaining : Option Nat := none
  slotsTotal : Option Nat := none
  message : String

/-- Return shape of checkRegistrationStatus. -/
structure CheckStatusResult where
  available : Bool
  remaining : Nat
  total : Nat
  message : String

/-- A JavaScript exception: an Error instance carrying a message, or any
other thrown value. -/
inductive Exn where
| err (message : String)
| other

/-- The catch clause of register.ts: the message of an Error instance,
otherwise the fallback text. -/
def exnMessage : Exn → String
| Exn.err m => m
| Exn.other => "Network error"

/-- Combined outcome of awaiting fetch and response.json(): either a
status code with a parsed body, or a throw from either await. -/
inductive FetchResult where
| success (status : Nat) (body : SponsoredResponse)
| throws (e : Exn)

/-- Combined outcome of the status GET and its parse. -/
inductive StatusFetchResult where
| success (body : StatusResponse)
| throws (e : Exn)

/-- An HTTP request as issued by fetch with a JSON body. -/
structure HttpRequest where
  url : String
  method : String
  contentType : String
  body : List (String × Json)

/-- Whether response.ok holds: status in the range 200-299. -/
def responseOk (status : Nat) : Bool :=
  200 ≤ status && status < 300

/-- JSON body of the sponsored registration POST (register.ts, sponsored
variant, lines 79-88): wallet, name, description, signature and timestamp,
plus the optional twitter, website and capabilities fields. -/
def sponsoredBody (wallet : String) (opts : RegisterOptions)
    (signature : String) (timestamp : Nat) : List (String × Json) :=
  [("wallet", Json.str wallet),
   ("name", Json.str opts.name),
   ("description", Json.str opts.description),
   ("signature", Json.str signature),
   ("timestamp", Json.num timestamp)]
  ++ optField "twitter" (opts.twitter.map Json.str)
  ++ optField "website" (opts.website.map Json.str)
  ++ optField "capabilities"
      (opts.capabilities.map (fun cs => Json.arr (cs.map Json.str)))

/-- The one POST request the sponsored registerAgent performs. -/
def sponsoredRequest (sign : List Nat → List Nat → List Nat)
    (timestamp : Nat) (opts : RegisterOptions) : HttpRequest :=
  let wallet := opts.keypair.address
  let message := getRegistrationMessage wallet opts.name timestamp
  let signature := signMessage sign message opts.keypair
  ⟨apiBase ++ "/api/register/sponsored", "POST", "application/json",
   sponsoredBody wallet opts signature timestamp⟩

/-- Document written to said.json on a 2xx response with a truthy success
flag (sponsored variant). -/
def saidJsonSuccess (wallet : String) (opts : RegisterOptions)
    (result : SponsoredResponse) (nowIso : String) : List (String × Json) :=
  [("wallet", Json.str wallet)]
  ++ optField "pda" (result.pda.map Json.str)
  ++ [("name", Json.str opts.name),
      ("description", Json.str opts.description)]
  ++ optField "metadataUri" (result.metadataUri.map Json.str)
  ++ optField "profile" (result.profile.map Json.str)
  ++ optField "badge" (result.badge.map Json.str)
  ++ [("registeredAt", Json.str nowIso)]
  ++ optField "sponsored" (result.sponsored.map Json.bool)
  ++ optField "slotsRemaining" (result.slotsRemaining.map Json.num)

/-- Reduced document written to said.json on HTTP 409 (sponsored
variant); the note field records the idempotent outcome. -/
def saidJson409 (wallet : String) (opts : RegisterOptions)
    (result : SponsoredResponse) (nowIso : String) : List (String × Json) :=
  [("wallet", Json.str wallet)]
  ++ optField "pda" (result.pda.map Json.str)
  ++ [("name", Json.str opts.name),
      ("description", Json.str opts.description)]
  ++ optField "profile" (result.profile.map Json.str)
  ++ [("registeredAt", Json.str nowIso),
      ("note", Json.str "Already registered")]

/-- Embedding of the sponsored registerAgent (register.ts lines 65-156,
compiled in dist/register.js).  The millisecond timestamp is the value
Date.now() returned, nowIso the value new Date().toISOString() returned,
and net the outcome of the awaited fetch and JSON parse.  The function
returns the RegisterResult, the trace of requests performed (always
exactly the one POST) and the list of file writes. -/
def registerAgent (sign : List Nat → List Nat → List Nat)
    (timestamp : Nat) (nowIso : String) (opts : RegisterOptions)
    (net : FetchResult) :
    RegisterResult × List HttpRequest × List (String × FileContent) :=
  let wallet := opts.keypair.address
  let req := sponsoredRequest sign timestamp opts
  match net with
  | FetchResult.throws e =>
      ({ success := false, error := some (exnMessage e) }, [req], [])
  | FetchResult.success status result =>
      if responseOk status && truthy result.success then
        ({ success := true, sponsored := result.sponsored, pda := result.pda,
           profile := result.profile, slotsRemaining := result.slotsRemaining },
         [req],
         [(pathJoin opts.projectPath "said.json",
           FileContent.json (Json.obj (saidJsonSuccess wallet opts result nowIso)))])
      else if status == 409 then
        ({ success := true, pda := result.pda, profile := result.profile,
           error := some "Wallet already registered (not an error)" },
         [req],
         [(pathJoin opts.projectPath "said.json",
           FileContent.json (Json.obj (saidJson409 wallet opts result nowIso)))])
      else if status == 410 then
        ({ success := false,
           error := some "Sponsorship pool exhausted. Fund wallet with 0.005 SOL and run: npm run register" },
         [req], [])
      else
        ({ success := false, error := some (jsOr result.error "Registration failed") },
         [req], [])

/-- JSON body of the pending registration POST (register.ts, pending
variant, lines 258-265 of the concatenated sources): wallet, name and
description plus the optional fields; no signature and no timestamp. -/
def pendingBody (wallet : String) (opts : RegisterOptions) :
    List (String × Json) :=
  [("wallet", Json.str wallet),
   ("name", Json.str opts.name),
   ("description", Json.str opts.description)]
  ++ optField "twitter" (opts.twitter.map Json.str)
  ++ optField "website" (opts.website.map Json.str)
  ++ optField "capabilities"
      (opts.capabilities.map (fun cs => Json.arr (cs.map Json.str)))

/-- The one POST request the pending registerAgent performs. -/
def pendingRequest (opts : RegisterOptions) : HttpRequest :=
  ⟨apiBase ++ "/api/register/pending", "POST", "application/json",
   pendingBody opts.keypair.address opts⟩

/-- Document written to said.json by the pending variant on success. -/
def saidJsonPending (wallet : String) (opts : RegisterOptions)
    (result : SponsoredResponse) (nowIso : String) : List (String × Json) :=
  [("wallet", Json.str wallet)]
  ++ optField "pda" (result.pda.map Json.str)
  ++ [("name", Json.str opts.name),
      ("description", Json.str opts.description)]
  ++ optField "metadataUri" (result.metadataUri.map Json.str)
  ++ optField "profile" (result.profile.map Json.str)
  ++ optField "badge" (result.badge.map Json.str)
  ++ [("status", Json.str "PENDING"),
      ("registeredAt", Json.str nowIso)]

/-- Embedding of the pending registerAgent (the second register.ts
variant in the sources): it signs nothing and sends neither signature nor
timestamp; a 2xx response with truthy success writes said.json, every
other response is a failure, a throw is caught. -/
def registerAgentPending (nowIso : String) (opts : RegisterOptions)
    (net : FetchResult) :
    RegisterResult × List HttpRequest × List (String × FileContent) :=
  let wallet := opts.keypair.address
  let req := pendingRequest opts
  match net with
  | FetchResult.throws e =>
      ({ success := false, error := some (exnMessage e) }, [req], [])
  | FetchResult.success status result =>
      if responseOk status && truthy result.success then
        ({ success := true, sponsored := some false, pda := result.pda,
           profile := result.profile },
         [req],
         [(pathJoin opts.projectPath "said.json",
           FileContent.json (Json.obj (saidJsonPending wallet opts result nowIso)))])
      else
        ({ success := false, error := some (jsOr result.error "Registration failed") },
         [req], [])

/-- Embedding of checkRegistrationStatus (register.ts lines 161-184): a
single GET; on success the parsed fields with or-else defaults, on any
throw the conservative default. -/
def checkRegistrationStatus (net : StatusFetchResult) : CheckStatusResult :=
  match net with
  | StatusFetchResult.success result =>
      { available := result.available,
        remaining := jsOrNat result.slotsRemaining 0,
        total := jsOrNat result.slotsTotal 100,
        message := result.message }
  | StatusFetchResult.throws _ =>
      { available := false, remaining := 0, total := 100,
        message := "Could not reach SAID API" }

/-- Options of scaffold (interface ScaffoldOptions in scaffold.ts).  The
template selector is kept as a string: the TypeScript union type does not
exist at runtime and the dispatch in scaffold handles arbitrary strings
with a default branch. -/
structure ScaffoldOptions where
  projectName : String
  projectPath : String
  template : String
  agentName : String
  description : String
  twitter : Option String := none
  website : Option String := none
  anthropicKey : Option String := none
  telegramToken : Option String := none
  telegramUserId : Option String := none

/-- The data a template generator actually receives: every ScaffoldOptions
field except the template selector.  scaffoldNanobot, scaffoldOpenclaw and
scaffoldEliza read projectPath, projectName, agentName, description,
twitter, website, anthropicKey, telegramToken and telegramUserId, and
never the template field. -/
structure TemplateInputs where
  projectName : String
  projectPath : String
  agentName : String
  description : String
  twitter : Option String
  website : Option String
  anthropicKey : Option String
  telegramToken : Option String
  telegramUserId : Option String

/-- Restriction of scaffold options to the fields the generators read. -/
def ScaffoldOptions.inputs (o : ScaffoldOptions) : TemplateInputs :=
  ⟨o.projectName, o.projectPath, o.agentName, o.description, o.twitter,
   o.website, o.anthropicKey, o.telegramToken, o.telegramUserId⟩

/-- Which template generator the scaffold dispatch invokes. -/
inductive TemplateGen where
| nanobot
| openclaw
| eliza

/-- Embedding of the dispatch in scaffold (scaffold.ts lines 1458-1466):
an if-chain on the selector string whose final else falls back to the
nanobot generator. -/
def scaffoldDispatch (template : String) : TemplateGen :=
  if template = "nanobot" then TemplateGen.nanobot
  else if template = "openclaw" then TemplateGen.openclaw
  else if template = "eliza" then TemplateGen.eliza
  else TemplateGen.nanobot

/-- Embedding of scaffold (scaffold.ts lines 1443-1469).  The template
generators scaffoldNanobot, scaffoldOpenclaw and scaffoldEliza are large
fixed maps from their inputs to a file set; they are passed in as the
parameters genNanobot, genOpenclaw and genEliza, which captures exactly
the data each one receives at its call site: the options without the
template selector, and for scaffoldEliza additionally the wallet address
string.  scaffold first writes the wallet file through generateKeypair,
then runs the generator the dispatch selects. -/
def scaffoldWrites (genNanobot genOpenclaw : TemplateInputs → List (String × FileContent))
    (genEliza : TemplateInputs → String → List (String × FileContent))
    (kp : Keypair) (opts : ScaffoldOptions) : List (String × FileContent) :=
  let generated := generateKeypair kp opts.projectPath
  let walletAddress := generated.1.address
  generated.2 ++
    match scaffoldDispatch opts.template with
    | TemplateGen.nanobot => genNanobot opts.inputs
    | TemplateGen.openclaw => genOpenclaw opts.inputs
    | TemplateGen.eliza => genEliza opts.inputs walletAddress

/-- The scaffold writes other than the wallet file. -/
def nonWalletWrites (genNanobot genOpenclaw : TemplateInputs → List (String × FileContent))
    (genEliza : TemplateInputs → String → List (String × FileContent))
    (kp : Keypair) (opts : ScaffoldOptions) : List (String × FileContent) :=
  (scaffoldWrites genNanobot genOpenclaw genEliza kp opts).filter
    (fun w => !(w.1 == pathJoin opts.projectPath "wallet.json"))

/-- Concrete keypair used to instantiate theorems: the bytes 0..63. -/
def exampleKeypair : Keypair := ⟨List.range 64⟩

/-- Concrete registration options used to instantiate theorems. -/
def exampleOpts : RegisterOptions :=
  { keypair := exampleKeypair, name := "Agent", description := "demo agent",
    projectPath := "proj" }

/-- Response body with every field absent. -/
def emptyResp : SponsoredResponse := {}

/-- Trivial stand-in for the detached-signature primitive, used only to
instantiate universally quantified theorems. -/
def zeroSign : List Nat → List Nat → List Nat := fun _ _ => []

/-- Concrete scaffold options whose template selector is the retired
selector light, which none of the known variants match. -/
def exampleScaffoldOpts : ScaffoldOptions :=
  { projectName := "trader-bot", projectPath := "trader-bot",
    template := "light", agentName := "Trader Bot",
    description := "demo agent" }

/-- Trivial template generator used to instantiate theorems. -/
def emptyGen : TemplateInputs → List (String × FileContent) := fun _ => []

/-- Trivial eliza-shaped template generator used to instantiate
theorems. -/
def emptyGenE : TemplateInputs → String → List (String × FileContent) :=
  fun _ _ => []

theorem string_data_append (a b : String) : (a ++ b).data = a.data ++ b.data := rfl

theorem charDigit_digitChar : ∀ d : Nat, d < 10 → charDigit (Nat.digitChar d) = d := by decide

theorem decodeDec_natToDecString (n : Nat) : decodeDec (natToDecString n) = n := by
  by_cases h : n = 0
  · subst h
    rfl
  · rw [natToDecString, if_neg h, decodeDec]
    show Nat.ofDigits 10
      (((((Nat.digits 10 n).map Nat.digitChar).reverse).asString).data.reverse.map charDigit) = n
    have hd : ((((Nat.digits 10 n).map Nat.digitChar).reverse).asString).data
        = ((Nat.digits 10 n).map Nat.digitChar).reverse := rfl
    rw [hd, List.reverse_reverse, List.map_map]
    have hmap : ((Nat.digits 10 n).map (charDigit ∘ Nat.digitChar)) = (Nat.digits 10 n).map id := by
      apply List.map_congr_left
      intro d hdmem
      exact charDigit_digitChar d (Nat.digits_lt_base (by norm_num) hdmem)
    rw [hmap, List.map_id]
    exact Nat.ofDigits_digits 10 n

theorem natToDecString_injective : Function.Injective natToDecString :=
  Function.LeftInverse.injective decodeDec_natToDecString

/-- Claim C6: getRegistrationMessage is a deterministic pure function of
(address, name, timestamp): it returns the colon-delimited string made of
the namespace tag SAID, the operation name register, the public address,
the display name and the millisecond timestamp, in that order, and equal
inputs always yield equal output. -/
theorem claim_C6_message_format (w n : String) (t : Nat) :
    getRegistrationMessage w n t
      = "SAID" ++ ":" ++ "register" ++ ":" ++ w ++ ":" ++ n ++ ":" ++ natToDecString t
    ∧ (∀ w2 n2 t2, w = w2 → n = n2 → t = t2 →
        getRegistrationMessage w n t = getRegistrationMessage w2 n2 t2) := by
  constructor
  · rfl
  · intro w2 n2 t2 h1 h2 h3
    rw [h1, h2, h3]

theorem claim_C6_message_format_witness :
    getRegistrationMessage "addr" "bot" 0
      = "SAID" ++ ":" ++ "register" ++ ":" ++ "addr" ++ ":" ++ "bot" ++ ":" ++ natToDecString 0
    ∧ getRegistrationMessage "addr" "bot" 0 = getRegistrationMessage "addr" "bot" 0 :=
  ⟨(claim_C6_message_format "addr" "bot" 0).1,
   (claim_C6_message_format "addr" "bot" 0).2 "addr" "bot" 0 rfl rfl rfl⟩

/-- Claim C7: for every address, every name and every pair of distinct
timestamps, the two registration messages differ. -/
theorem claim_C7_message_timestamp_injective (w n : String) (t1 t2 : Nat)
    (h : t1 ≠ t2) :
    getRegistrationMessage w n t1 ≠ getRegistrationMessage w n t2 := by
  intro he
  apply h
  apply natToDecString_injective
  have hdata := congrArg String.data he
  rw [getRegistrationMessage, getRegistrationMessage] at hdata
  repeat rw [string_data_append] at hdata
  exact congrArg String.mk (List.append_cancel_left hdata)

theorem claim_C7_message_timestamp_injective_witness :
    getRegistrationMessage "addr" "bot" 0 ≠ getRegistrationMessage "addr" "bot" 1 :=
  claim_C7_message_timestamp_injective "addr" "bot" 0 1 (by decide)

/-- Claim C4: whenever the status GET or its response parsing fails,
checkRegistrationStatus returns the conservative default, available false
with 0 of 100 slots, together with a message string, and propagates no
error to the caller (the embedding is a total function and the throwing
outcome is mapped to a plain return value). -/
theorem claim_C4_status_conservative_default (e : Exn) :
    checkRegistrationStatus (StatusFetchResult.throws e)
      = { available := false, remaining := 0, total := 100,
          message := "Could not reach SAID API" } := rfl

/-- Claim C3: for every registerAgent call (sponsored variant and pending
variant alike) in which the transport layer throws an Error with a
message, the call returns a failure outcome whose error text equals the
thrown message; nothing escapes the catch. -/
theorem claim_C3_transport_exception_message (sign : List Nat → List Nat → List Nat)
    (timestamp : Nat) (nowIso : String) (opts : RegisterOptions) (msg : String) :
    (registerAgent sign timestamp nowIso opts (FetchResult.throws (Exn.err msg))).1
      = { success := false, error := some msg }
    ∧ (registerAgentPending nowIso opts (FetchResult.throws (Exn.err msg))).1
      = { success := false, error := some msg } :=
  ⟨rfl, rfl⟩

/-- Claim C2: for every sponsored registerAgent call whose HTTP response
has status 409, the result is a success outcome, the reduced record with
a populated note field is written to said.json in the project directory,
and the error field carries only the non-fatal already-registered text. -/
theorem claim_C2_409_is_success (sign : List Nat → List Nat → List Nat)
    (timestamp : Nat) (nowIso : String) (opts : RegisterOptions)
    (resp : SponsoredResponse) :
    (registerAgent sign timestamp nowIso opts (FetchResult.success 409 resp)).1.success = true
    ∧ (registerAgent sign timestamp nowIso opts (FetchResult.success 409 resp)).2.2
      = [(pathJoin opts.projectPath "said.json",
          FileContent.json (Json.obj
            (saidJson409 opts.keypair.address opts resp nowIso)))]
    ∧ ("note", Json.str "Already registered")
        ∈ saidJson409 opts.keypair.address opts resp nowIso
    ∧ (registerAgent sign timestamp nowIso opts (FetchResult.success 409 resp)).1.error
      = some "Wallet already registered (not an error)" := by
  refine ⟨?_, ?_, ?_, ?_⟩
  · cases hs : resp.success with
    | none => rfl
    | some b => simp [registerAgent, responseOk, truthy, hs]
  · cases hs : resp.success with
    | none => rfl
    | some b => simp [registerAgent, responseOk, truthy, hs]
  · simp [saidJson409, List.mem_append]
  · cases hs : resp.success with
    | none => rfl
    | some b => simp [registerAgent, responseOk, truthy, hs]

/-- Claim C1, amended: for every call to the sponsored registerAgent (the
variant POSTing to /api/register/sponsored, the one compiled into
dist/register.js), the call builds the canonical registration message
from the keypair public address, the agent name and the millisecond
timestamp taken at call time, signs it with the keypair secret key, and
performs exactly one POST whose JSON body contains the public address,
name, description, the base-58 signature and that same timestamp; the
pending variant sends neither signature nor timestamp, see the
counterexample. -/
theorem claim_C1_sponsored_post (sign : List Nat → List Nat → List Nat)
    (timestamp : Nat) (nowIso : String) (opts : RegisterOptions)
    (net : FetchResult) :
    (registerAgent sign timestamp nowIso opts net).2.1
      = [sponsoredRequest sign timestamp opts]
    ∧ (sponsoredRequest sign timestamp opts).url = apiBase ++ "/api/register/sponsored"
    ∧ (sponsoredRequest sign timestamp opts).method = "POST"
    ∧ lookupField (sponsoredRequest sign timestamp opts).body "wallet"
      = some (Json.str opts.keypair.address)
    ∧ lookupField (sponsoredRequest sign timestamp opts).body "name"
      = some (Json.str opts.name)
    ∧ lookupField (sponsoredRequest sign timestamp opts).body "description"
      = some (Json.str opts.description)
    ∧ lookupField (sponsoredRequest sign timestamp opts).body "signature"
      = some (Json.str (signMessage sign
          (getRegistrationMessage opts.keypair.address opts.name timestamp)
          opts.keypair))
    ∧ lookupField (sponsoredRequest sign timestamp opts).body "timestamp"
      = some (Json.num timestamp) := by
  refine ⟨?_, rfl, rfl, rfl, rfl, rfl, rfl, rfl⟩
  cases net with
  | throws e => rfl
  | success status resp =>
      by_cases h : (responseOk status && truthy resp.success) = true
      · simp [registerAgent, h]
      · by_cases h409 : (status == 409) = true
        · simp [registerAgent, h, h409]
        · by_cases h410 : (status == 410) = true
          · simp [registerAgent, h, h409, h410]
          · simp [registerAgent, h, h409, h410]

/-- Claim C1, counterexample: the claim quantifies over every registerAgent
call, and its cited sources include the pending variant of register.ts
(the second register document, lines 249-266 of the concatenated file).
That variant computes no signature and performs its one POST with a JSON
body that contains no signature field and no timestamp field, refuting
the claim at this concrete call. -/
theorem claim_C1_counterexample :
    (registerAgentPending "2026-01-01T00:00:00.000Z" exampleOpts
        (FetchResult.success 200 emptyResp)).2.1
      = [pendingRequest exampleOpts]
    ∧ lookupField (pendingRequest exampleOpts).body "signature" = none
    ∧ lookupField (pendingRequest exampleOpts).body "timestamp" = none :=
  ⟨rfl, rfl, rfl⟩

/-- Claim C10: atomicity of registration on failure.  For every sponsored
registerAgent call whose outcome is a failure, no said.json write is
performed; the file effects of the call are empty. -/
theorem claim_C10_no_write_on_failure (sign : List Nat → List Nat → List Nat)
    (timestamp : Nat) (nowIso : String) (opts : RegisterOptions)
    (net : FetchResult)
    (h : (registerAgent sign timestamp nowIso opts net).1.success = false) :
    (registerAgent sign timestamp nowIso opts net).2.2 = [] := by
  cases net with
  | throws e => rfl
  | success status resp =>
      by_cases hok : (responseOk status && truthy resp.success) = true
      · rw [registerAgent] at h
        simp [hok] at h
      · by_cases h409 : (status == 409) = true
        · rw [registerAgent] at h
          simp [hok, h409] at h
        · by_cases h410 : (status == 410) = true
          · simp [registerAgent, hok, h409, h410]
          · simp [registerAgent, hok, h409, h410]

theorem claim_C10_no_write_on_failure_witness :
    (registerAgent zeroSign 0 "2026-01-01T00:00:00.000Z" exampleOpts
        (FetchResult.throws Exn.other)).1.success = false
    ∧ (registerAgent zeroSign 0 "2026-01-01T00:00:00.000Z" exampleOpts
        (FetchResult.throws Exn.other)).2.2 = [] :=
  ⟨rfl, claim_C10_no_write_on_failure zeroSign 0 "2026-01-01T00:00:00.000Z"
    exampleOpts (FetchResult.throws Exn.other) rfl⟩

theorem coerceBytes_mapNum (bs : List Nat) (hb : ∀ b ∈ bs, b < 256) :
    coerceBytes (bs.map Json.num) = some bs := by
  induction bs with
  | nil => rfl
  | cons b t ih =>
      have hbb : b < 256 := hb b (by simp)
      have iht := ih (fun x hx => hb x (by simp [hx]))
      simp [coerceBytes, iht, Nat.mod_eq_of_lt hbb]

/-- Claim C8: round trip of the key material.  Applying loadKeypair to
the wallet file content written by generateKeypair recovers the very
keypair that generateKeypair returned, and in particular a keypair whose
public address equals the address reported at generation time.  The
hypotheses state that the generated secret key is a 64-entry byte
array, which Keypair.generate guarantees. -/
theorem claim_C8_keypair_roundtrip (kp : Keypair) (projectPath : String)
    (h64 : kp.secretKey.length = 64) (hb : ∀ b ∈ kp.secretKey, b < 256) :
    (generateKeypair kp projectPath).2
      = [(pathJoin projectPath "wallet.json",
          FileContent.json (Json.arr (kp.secretKey.map Json.num)))]
    ∧ loadKeypair (Json.arr (kp.secretKey.map Json.num))
      = some ((generateKeypair kp projectPath).1)
    ∧ (loadKeypair (Json.arr (kp.secretKey.map Json.num))).map Keypair.address
      = some ((generateKeypair kp projectPath).1.address) := by
  have hload : loadKeypair (Json.arr (kp.secretKey.map Json.num)) = some kp := by
    rw [loadKeypair]
    simp only [uint8ArrayFrom, coerceBytes_mapNum kp.secretKey hb]
    simp [Keypair.fromSecretKey, h64]
  exact ⟨rfl, hload, by rw [hload]; rfl⟩

theorem claim_C8_keypair_roundtrip_witness :
    exampleKeypair.secretKey.length = 64
    ∧ (∀ b ∈ exampleKeypair.secretKey, b < 256)
    ∧ loadKeypair (Json.arr (exampleKeypair.secretKey.map Json.num))
      = some ((generateKeypair exampleKeypair "proj").1) :=
  ⟨by decide, by decide,
   (claim_C8_keypair_roundtrip exampleKeypair "proj" (by decide) (by decide)).2.1⟩

/-- Claim C9: for every template selector that is none of the known
variants nanobot, openclaw and eliza, scaffold raises no error (the
embedding is a total function) and produces exactly the file set that the
selector nanobot, the designated default, produces. -/
theorem claim_C9_unknown_template_default
    (genN genO : TemplateInputs → List (String × FileContent))
    (genE : TemplateInputs → String → List (String × FileContent))
    (kp : Keypair) (opts : ScaffoldOptions)
    (h : opts.template ∉ (["nanobot", "openclaw", "eliza"] : List String)) :
    scaffoldWrites genN genO genE kp opts
      = scaffoldWrites genN genO genE kp { opts with template := "nanobot" } := by
  have h1 : ¬ opts.template = "nanobot" := fun e => h (by simp [e])
  have h2 : ¬ opts.template = "openclaw" := fun e => h (by simp [e])
  have h3 : ¬ opts.template = "eliza" := fun e => h (by simp [e])
  simp [scaffoldWrites, scaffoldDispatch, ScaffoldOptions.inputs, h1, h2, h3]

theorem claim_C9_unknown_template_default_witness :
    exampleScaffoldOpts.template ∉ (["nanobot", "openclaw", "eliza"] : List String)
    ∧ scaffoldWrites emptyGen emptyGen emptyGenE exampleKeypair exampleScaffoldOpts
      = scaffoldWrites emptyGen emptyGen emptyGenE exampleKeypair
          { exampleScaffoldOpts with template := "nanobot" } :=
  ⟨by decide,
   claim_C9_unknown_template_default emptyGen emptyGen emptyGenE exampleKeypair
     exampleScaffoldOpts (by decide)⟩

theorem mem_optField_map {α : Type} {k : String} {f : α → Json} {o : Option α}
    {kv : String × Json} (h : kv ∈ optField k (o.map f)) :
    kv.1 = k ∧ ∃ a, kv.2 = f a := by
  cases o with
  | none => cases h
  | some a =>
      simp only [Option.map_some', optField, List.mem_singleton] at h
      subst h
      exact ⟨rfl, a, rfl⟩

theorem jsonListHasBytes_mapStr (bs : List Nat) (ss : List String) :
    jsonListHasBytes bs (ss.map Json.str) = false := by
  induction ss with
  | nil => rfl
  | cons s t ih => simp [jsonListHasBytes, jsonHasBytes, ih]

theorem jsonEqNumList_mapStr (bs : List Nat) (ss : List String) (h : bs ≠ []) :
    jsonEqNumList (ss.map Json.str) bs = false := by
  cases ss with
  | nil =>
      cases bs with
      | nil => exact absurd rfl h
      | cons b t => rfl
  | cons s t =>
      cases bs with
      | nil => rfl
      | cons b u => rfl

theorem jsonHasBytes_strArr (bs : List Nat) (ss : List String) (h : bs ≠ []) :
    jsonHasBytes bs (Json.arr (ss.map Json.str)) = false := by
  simp [jsonHasBytes, jsonEqNumList_mapStr bs ss h, jsonListHasBytes_mapStr]

theorem jsonObjHasBytes_eq_false (bs : List Nat) (kvs : List (String × Json))
    (h : ∀ kv ∈ kvs, jsonHasBytes bs kv.2 = false) :
    jsonObjHasBytes bs kvs = false := by
  induction kvs with
  | nil => rfl
  | cons kv t ih =>
      simp [jsonObjHasBytes, h kv (by simp),
        ih (fun x hx => h x (by simp [hx]))]

theorem saidJsonSuccess_no_bytes (bs : List Nat) (w : String)
    (opts : RegisterOptions) (resp : SponsoredResponse) (nowIso : String) :
    ∀ kv ∈ saidJsonSuccess w opts resp nowIso, jsonHasBytes bs kv.2 = false := by
  intro kv hkv
  simp only [saidJsonSuccess, List.mem_append] at hkv
  rcases hkv with ((((((((h | h) | h) | h) | h) | h) | h) | h) | h)
  · simp only [List.mem_singleton] at h
    subst h
    rfl
  · rcases mem_optField_map h with ⟨-, a, ha⟩
    rw [ha]
    rfl
  · simp only [List.mem_cons, List.not_mem_nil, or_false] at h
    rcases h with rfl | rfl <;> rfl
  · rcases mem_optField_map h with ⟨-, a, ha⟩
    rw [ha]
    rfl
  · rcases mem_optField_map h with ⟨-, a, ha⟩
    rw [ha]
    rfl
  · rcases mem_optField_map h with ⟨-, a, ha⟩
    rw [ha]
    rfl
  · simp only [List.mem_singleton] at h
    subst h
    rfl
  · rcases mem_optField_map h with ⟨-, a, ha⟩
    rw [ha]
    rfl
  · rcases mem_optField_map h with ⟨-, a, ha⟩
    rw [ha]
    rfl

theorem saidJson409_no_bytes (bs : List Nat) (w : String)
    (opts : RegisterOptions) (resp : SponsoredResponse) (nowIso : String) :
    ∀ kv ∈ saidJson409 w opts resp nowIso, jsonHasBytes bs kv.2 = false := by
  intro kv hkv
  simp only [saidJson409, List.mem_append] at hkv
  rcases hkv with ((((h | h) | h) | h) | h)
  · simp only [List.mem_singleton] at h
    subst h
    rfl
  · rcases mem_optField_map h with ⟨-, a, ha⟩
    rw [ha]
    rfl
  · simp only [List.mem_cons, List.not_mem_nil, or_false] at h
    rcases h with rfl | rfl <;> rfl
  · rcases mem_optField_map h with ⟨-, a, ha⟩
    rw [ha]
    rfl
  · simp only [List.mem_cons, List.not_mem_nil, or_false] at h
    rcases h with rfl | rfl <;> rfl

/-- Claim C5: confinement of the private key.  For every sponsored
registration call, the POST body carries only the wallet address, name,
description, signature, timestamp and the optional twitter, website and
capabilities fields, and no body value holds the secret-key byte
sequence; no file written by registerAgent holds the secret-key byte
sequence; and the files scaffold generates besides the single wallet.json
do not depend on the secret key at all — two keypairs with the same
public address produce identical non-wallet file sets. -/
theorem claim_C5_secret_key_confinement (sign : List Nat → List Nat → List Nat)
    (timestamp : Nat) (nowIso : String) (opts : RegisterOptions)
    (net : FetchResult)
    (h64 : opts.keypair.secretKey.length = 64) :
    (∀ kv ∈ (sponsoredRequest sign timestamp opts).body,
        kv.1 ∈ (["wallet", "name", "description", "signature", "timestamp",
                 "twitter", "website", "capabilities"] : List String)
        ∧ jsonHasBytes opts.keypair.secretKey kv.2 = false)
    ∧ (∀ w ∈ (registerAgent sign timestamp nowIso opts net).2.2,
        fileContentHasBytes opts.keypair.secretKey w.2 = false)
    ∧ (∀ (genN genO : TemplateInputs → List (String × FileContent))
         (genE : TemplateInputs → String → List (String × FileContent))
         (kp2 : Keypair) (sopts : ScaffoldOptions),
        opts.keypair.address = kp2.address →
        nonWalletWrites genN genO genE opts.keypair sopts
          = nonWalletWrites genN genO genE kp2 sopts) := by
  have hne : opts.keypair.secretKey ≠ [] := by
    intro e
    rw [e] at h64
    simp at h64
  refine ⟨?_, ?_, ?_⟩
  · intro kv hkv
    simp only [sponsoredRequest, sponsoredBody, List.mem_append] at hkv
    rcases hkv with ((h | h) | h) | h
    · simp only [List.mem_cons, List.not_mem_nil, or_false] at h
      rcases h with rfl | rfl | rfl | rfl | rfl <;> exact ⟨by simp, rfl⟩
    · rcases mem_optField_map h with ⟨hk, a, ha⟩
      rw [hk, ha]
      exact ⟨by simp, rfl⟩
    · rcases mem_optField_map h with ⟨hk, a, ha⟩
      rw [hk, ha]
      exact ⟨by simp, rfl⟩
    · rcases mem_optField_map h with ⟨hk, a, ha⟩
      rw [hk, ha]
      exact ⟨by simp, jsonHasBytes_strArr _ a hne⟩
  · intro w hw
    cases net with
    | throws e => simp [registerAgent] at hw
    | success status resp =>
        by_cases hok : (responseOk status && truthy resp.success) = true
        · simp only [registerAgent, hok, if_true] at hw
          simp only [List.mem_singleton] at hw
          subst hw
          exact jsonObjHasBytes_eq_false _ _
            (saidJsonSuccess_no_bytes _ _ opts resp nowIso)
        · by_cases h409 : (status == 409) = true
          · simp only [registerAgent, hok, h409] at hw
            simp only [Bool.false_eq_true, if_false, if_true, List.mem_singleton] at hw
            subst hw
            exact jsonObjHasBytes_eq_false _ _
              (saidJson409_no_bytes _ _ opts resp nowIso)
          · by_cases h410 : (status == 410) = true
            · simp [registerAgent, hok, h409, h410] at hw
            · simp [registerAgent, hok, h409, h410] at hw
  · intro genN genO genE kp2 sopts haddr
    unfold nonWalletWrites scaffoldWrites
    cases hsd : scaffoldDispatch sopts.template <;>
      simp [generateKeypair, List.filter_cons, haddr]

theorem claim_C5_secret_key_confinement_witness :
    exampleOpts.keypair.secretKey.length = 64
    ∧ (∀ kv ∈ (sponsoredRequest zeroSign 0 exampleOpts).body,
        kv.1 ∈ (["wallet", "name", "description", "signature", "timestamp",
                 "twitter", "website", "capabilities"] : List String)
        ∧ jsonHasBytes exampleOpts.keypair.secretKey kv.2 = false)
    ∧ (∀ w ∈ (registerAgent zeroSign 0 "2026-01-01T00:00:00.000Z" exampleOpts
          (FetchResult.throws Exn.other)).2.2,
        fileContentHasBytes exampleOpts.keypair.secretKey w.2 = false) :=
  ⟨by decide,
   (claim_C5_secret_key_confinement zeroSign 0 "2026-01-01T00:00:00.000Z"
      exampleOpts (FetchResult.throws Exn.other) (by decide)).1,
   (claim_C5_secret_key_confinement zeroSign 0 "2026-01-01T00:00:00.000Z"
      exampleOpts (FetchResult.throws Exn.other) (by decide)).2.1⟩
